import Mathlib

/-!
Verification of `aws_reservations_report.py`: a shallow embedding of the
script's pure logic.  Provider calls are modelled as values of type
`Except PyExc resp` handed to each function (the script performs exactly one
call per function invocation, so the call's outcome is an input of the
embedding); Python dictionaries are association lists built with the
dict-literal semantics (a repeated key overwrites the earlier value in
place), and `print` output is modelled as an explicit list of log lines.
-/

/-- A naive timestamp, standing for Python's `datetime` (year-second). -/
structure PyDateTime where
  year : Nat
  month : Nat
  day : Nat
  hour : Nat
  minute : Nat
  second : Nat
deriving DecidableEq

/-- Zero-pad a numeral to two digits, as `%m`, `%d`, `%H`, `%M`, `%S` do. -/
def pad2 (n : Nat) : String :=
  if n < 10 then "0" ++ toString n else toString n

/-- Zero-pad a numeral to four digits, as `%Y` does. -/
def pad4 (n : Nat) : String :=
  if n < 10 then "000" ++ toString n
  else if n < 100 then "00" ++ toString n
  else if n < 1000 then "0" ++ toString n
  else toString n

/-- `dt.strftime('%Y-%m-%d %H:%M:%S UTC')` from `format_datetime`. -/
def strftimeUTC (d : PyDateTime) : String :=
  pad4 d.year ++ "-" ++ pad2 d.month ++ "-" ++ pad2 d.day ++ " " ++
    pad2 d.hour ++ ":" ++ pad2 d.minute ++ ":" ++ pad2 d.second ++ " UTC"

/-- Python's `str(datetime)` rendering (used by `json.dump`'s `default=str`). -/
def datetimeStr (d : PyDateTime) : String :=
  pad4 d.year ++ "-" ++ pad2 d.month ++ "-" ++ pad2 d.day ++ " " ++
    pad2 d.hour ++ ":" ++ pad2 d.minute ++ ":" ++ pad2 d.second

/-- A date-like value as it may arrive from the provider: either already a
string or a `datetime` object.  (`format_datetime` receives this, or `None`.) -/
inductive PyDT where
  | pstr (s : String)
  | pdt (d : PyDateTime)
deriving DecidableEq

/-- Python truthiness of the argument `dt` of `format_datetime`:
`None` and the empty string are falsy; a `datetime` object is always truthy. -/
def pyTruthy : Option PyDT → Bool
  | none => false
  | some (.pstr s) => !(s == "")
  | some (.pdt _) => true

/-- `format_datetime(dt)` (lines 21-29): `if dt:` then pass strings through
and render datetimes with `strftime`; otherwise return `'N/A'`. -/
def format_datetime (dt : Option PyDT) : String :=
  if pyTruthy dt then
    match dt with
    | some (.pstr s) => s
    | some (.pdt d) => strftimeUTC d
    | none => "N/A"
  else "N/A"

/-- A Python value as it occurs in the script's record dictionaries. -/
inductive PyVal where
  | str (s : String)
  | int (n : Int)
  | bool (b : Bool)
  | dt (d : PyDateTime)
deriving DecidableEq

/-- A Reservation Record: a Python dict, i.e. an insertion-ordered
association list from field name to value. -/
abbrev Record : Type := List (String × PyVal)

/-- Insert a key into a dict: a repeated key overwrites the earlier value in
place (Python dict semantics), a fresh key is appended at the end. -/
def dictInsert (d : Record) (k : String) (v : PyVal) : Record :=
  if d.any (fun p => p.1 == k) then
    d.map (fun p => if p.1 == k then (k, v) else p)
  else
    d ++ [(k, v)]

/-- Evaluate a Python dict literal: fold the written entries left to right
through `dictInsert`, so a duplicated key keeps its first position but takes
its last written value. -/
def dictLit (entries : List (String × PyVal)) : Record :=
  entries.foldl (fun d e => dictInsert d e.1 e.2) []

/-- `r.get(k)`: the value at key `k`, if present. -/
def rget (r : Record) (k : String) : Option PyVal :=
  (List.find? (fun p => p.1 == k) r).map Prod.snd

/-- An exception, as the script distinguishes them: a `botocore` `ClientError`
carrying the provider's error code (plus a message), or any other exception. -/
inductive PyExc where
  | clientError (code : String) (msg : String)
  | otherExc (name : String) (msg : String)
deriving DecidableEq

/-- One entry of `describe_regions()['Regions']`. -/
structure RegionEntry where
  RegionName : String
deriving DecidableEq

/-- The `describe_regions` response shape. -/
structure RegionsResponse where
  Regions : List RegionEntry
deriving DecidableEq

/-- Outcome of `get_all_regions`: a region list plus console log lines, or an
uncaught exception. -/
inductive RegionsOutcome where
  | ok (regions : List String) (logs : List String)
  | raised (e : PyExc)
deriving DecidableEq

/-- The hardcoded fallback region list (lines 41-46). -/
def fallbackRegions : List String :=
  ["us-east-1", "us-east-2", "us-west-1", "us-west-2",
   "eu-west-1", "eu-west-2", "eu-west-3", "eu-central-1",
   "ap-southeast-1", "ap-southeast-2", "ap-northeast-1", "ap-northeast-2",
   "ap-south-1", "ca-central-1", "sa-east-1"]

/-- `get_all_regions(session)` (lines 32-46), over the outcome of its single
`describe_regions()` call: on success map out the region names; on
`ClientError` print one line and return the fallback list; any other
exception is not caught. -/
def get_all_regions (call : Except PyExc RegionsResponse) : RegionsOutcome :=
  match call with
  | .ok resp => .ok (resp.Regions.map RegionEntry.RegionName) []
  | .error (.clientError _ msg) =>
      .ok fallbackRegions ["Error getting regions: " ++ msg]
  | .error e => .raised e

/-- One entry of `describe_reserved_instances()['ReservedInstances']`.
Fields the script reads with `ri[...]` are mandatory; fields read with
`ri.get(...)` are optional. -/
structure EC2RIRaw where
  ReservedInstancesId : String
  InstanceType : String
  AvailabilityZone : Option String
  State : String
  Start : Option PyDT
  End : Option PyDT
  Duration : Int
  InstanceCount : Int
  ProductDescription : String
  InstanceTenancy : String
  OfferingClass : String
  OfferingType : String
  FixedPrice : Option Int
  UsagePrice : Option Int
  CurrencyCode : Option String
deriving DecidableEq

/-- The `describe_reserved_instances` response shape. -/
structure EC2Response where
  ReservedInstances : List EC2RIRaw
deriving DecidableEq

/-- One entry of `describe_reserved_db_instances()['ReservedDBInstances']`. -/
structure RDSRIRaw where
  ReservedDBInstanceId : String
  DBInstanceClass : String
  ProductDescription : String
  State : String
  StartTime : Option PyDT
  Duration : Int
  DBInstanceCount : Int
  OfferingType : String
  MultiAZ : Bool
  FixedPrice : Option Int
  UsagePrice : Option Int
  CurrencyCode : Option String
deriving DecidableEq

/-- The `describe_reserved_db_instances` response shape. -/
structure RDSResponse where
  ReservedDBInstances : List RDSRIRaw
deriving DecidableEq

/-- One entry of `describe_savings_plans()['savingsPlans']`.  The field the
source calls `end` is named `end_` here (`end` is a Lean keyword). -/
structure SPRaw where
  savingsPlanId : String
  savingsPlanArn : String
  description : Option String
  state : String
  savingsPlanType : String
  paymentOption : String
  start : Option PyDT
  end_ : Option PyDT
  commitment : String
  currency : String
  upfrontPaymentAmount : Option String
  recurringPaymentAmount : Option String
  termDurationInSeconds : Option Int
  ec2InstanceFamily : Option String
  region : Option String
deriving DecidableEq

/-- The `describe_savings_plans` response shape. -/
structure SPResponse where
  savingsPlans : List SPRaw
deriving DecidableEq

/-- The dict literal appended for one EC2 reserved instance (lines 57-75). -/
def ec2Record (region : String) (ri : EC2RIRaw) : Record :=
  dictLit [
    ("Type", .str "EC2 Reserved Instance"),
    ("Region", .str region),
    ("ReservedInstancesId", .str ri.ReservedInstancesId),
    ("InstanceType", .str ri.InstanceType),
    ("AvailabilityZone", .str (ri.AvailabilityZone.getD "N/A")),
    ("State", .str ri.State),
    ("Start", .str (format_datetime ri.Start)),
    ("End", .str (format_datetime ri.End)),
    ("Duration", .str (toString ri.Duration ++ " seconds")),
    ("InstanceCount", .int ri.InstanceCount),
    ("ProductDescription", .str ri.ProductDescription),
    ("InstanceTenancy", .str ri.InstanceTenancy),
    ("OfferingClass", .str ri.OfferingClass),
    ("OfferingType", .str ri.OfferingType),
    ("FixedPrice", .int (ri.FixedPrice.getD 0)),
    ("UsagePrice", .int (ri.UsagePrice.getD 0)),
    ("CurrencyCode", .str (ri.CurrencyCode.getD "USD"))]

/-- The dict literal appended for one RDS reserved instance (lines 93-108). -/
def rdsRecord (region : String) (ri : RDSRIRaw) : Record :=
  dictLit [
    ("Type", .str "RDS Reserved Instance"),
    ("Region", .str region),
    ("ReservedDBInstanceId", .str ri.ReservedDBInstanceId),
    ("DBInstanceClass", .str ri.DBInstanceClass),
    ("Engine", .str ri.ProductDescription),
    ("State", .str ri.State),
    ("Start", .str (format_datetime ri.StartTime)),
    ("Duration", .str (toString ri.Duration ++ " seconds")),
    ("DBInstanceCount", .int ri.DBInstanceCount),
    ("OfferingType", .str ri.OfferingType),
    ("MultiAZ", .bool ri.MultiAZ),
    ("FixedPrice", .int (ri.FixedPrice.getD 0)),
    ("UsagePrice", .int (ri.UsagePrice.getD 0)),
    ("CurrencyCode", .str (ri.CurrencyCode.getD "USD"))]

/-- The dict literal appended for one savings plan (lines 126-144).  Note the
key `"Region"` is written twice in the source (lines 128 and 143): the literal
keeps the first position but the last written value. -/
def spRecord (region : String) (sp : SPRaw) : Record :=
  dictLit [
    ("Type", .str "Savings Plan"),
    ("Region", .str region),
    ("SavingsPlanId", .str sp.savingsPlanId),
    ("SavingsPlanArn", .str sp.savingsPlanArn),
    ("Description", .str (sp.description.getD "N/A")),
    ("State", .str sp.state),
    ("PlanType", .str sp.savingsPlanType),
    ("PaymentOption", .str sp.paymentOption),
    ("Start", .str (format_datetime sp.start)),
    ("End", .str (format_datetime sp.end_)),
    ("Commitment", .str (sp.commitment ++ " " ++ sp.currency ++ "/hour")),
    ("Currency", .str sp.currency),
    ("UpfrontPayment", .str (sp.upfrontPaymentAmount.getD "N/A")),
    ("RecurringPayment", .str (sp.recurringPaymentAmount.getD "N/A")),
    ("TermDurationInSeconds",
      match sp.termDurationInSeconds with
      | some n => .int n
      | none => .str "N/A"),
    ("EC2InstanceFamily", .str (sp.ec2InstanceFamily.getD "N/A")),
    ("Region", .str (sp.region.getD "N/A"))]

/-- Outcome of one fetcher call: a record list plus console log lines, or an
uncaught exception. -/
inductive FetchOutcome where
  | ok (records : List Record) (logs : List String)
  | raised (e : PyExc)
deriving DecidableEq

/-- The record list of a fetch outcome (empty when an exception was raised;
in a completed run of `main` no fetcher has raised). -/
def FetchOutcome.records : FetchOutcome → List Record
  | .ok rs _ => rs
  | .raised _ => []

/-- The provider error codes the fetchers suppress silently (lines 80, 113,
149). -/
def authDeniedCodes : List String := ["UnauthorizedOperation", "AccessDenied"]

/-- `get_ec2_reserved_instances(session, region)` (lines 49-82), over the
outcome of its single `describe_reserved_instances()` call: normalize on
success; on `ClientError` return `[]`, printing one line unless the code is
authorization-denied; any other exception is not caught by the
`except ClientError` clause. -/
def get_ec2_reserved_instances (region : String)
    (call : Except PyExc EC2Response) : FetchOutcome :=
  match call with
  | .ok resp => .ok (resp.ReservedInstances.map (ec2Record region)) []
  | .error (.clientError code msg) =>
      if code ∈ authDeniedCodes then .ok [] []
      else .ok [] ["Error retrieving EC2 Reserved Instances in " ++ region ++
        ": " ++ msg]
  | .error e => .raised e

/-- `get_rds_reserved_instances(session, region)` (lines 85-115). -/
def get_rds_reserved_instances (region : String)
    (call : Except PyExc RDSResponse) : FetchOutcome :=
  match call with
  | .ok resp => .ok (resp.ReservedDBInstances.map (rdsRecord region)) []
  | .error (.clientError code msg) =>
      if code ∈ authDeniedCodes then .ok [] []
      else .ok [] ["Error retrieving RDS Reserved Instances in " ++ region ++
        ": " ++ msg]
  | .error e => .raised e

/-- `get_savings_plans(session, region)` (lines 118-151). -/
def get_savings_plans (region : String)
    (call : Except PyExc SPResponse) : FetchOutcome :=
  match call with
  | .ok resp => .ok (resp.savingsPlans.map (spRecord region)) []
  | .error (.clientError code msg) =>
      if code ∈ authDeniedCodes then .ok [] []
      else .ok [] ["Error retrieving Savings Plans in " ++ region ++
        ": " ++ msg]
  | .error e => .raised e

/-- The records of a fetch outcome, if it completed without raising. -/
def okRecs : FetchOutcome → Option (List Record)
  | .ok rs _ => some rs
  | .raised _ => none

/-- One iteration of `main`'s region loop (lines 225-237): call the three
fetchers in order compute, database, subscription-plan and concatenate; if
any of them raises, control leaves the loop (modelled as `none`). -/
def regionRecs (ef rf sf : FetchOutcome) : Option (List Record) := do
  let a ← okRecs ef
  let b ← okRecs rf
  let c ← okRecs sf
  pure (a ++ b ++ c)

/-- The per-region record lists produced by the three fetchers, concatenated
in the source's order (compute, then database, then subscription-plan). -/
def tripleRecs (reg : String) (e : String → Except PyExc EC2Response)
    (r : String → Except PyExc RDSResponse)
    (s : String → Except PyExc SPResponse) : List Record :=
  (get_ec2_reserved_instances reg (e reg)).records ++
    (get_rds_reserved_instances reg (r reg)).records ++
    (get_savings_plans reg (s reg)).records

/-- `main`'s accumulation loop (lines 220-244) over the remaining regions,
starting from the already accumulated `all_reservations` list: per region,
extend the accumulator by the region's records when non-empty. -/
def mainCollectAux (e : String → Except PyExc EC2Response)
    (r : String → Except PyExc RDSResponse)
    (s : String → Except PyExc SPResponse) :
    List String → List Record → Option (List Record)
  | [], acc => some acc
  | reg :: rest, acc =>
    (regionRecs (get_ec2_reserved_instances reg (e reg))
        (get_rds_reserved_instances reg (r reg))
        (get_savings_plans reg (s reg))).bind
      (fun rr =>
        mainCollectAux e r s rest (if rr.isEmpty then acc else acc ++ rr))

/-- The full `all_reservations` list a run of `main` accumulates over
`regions`, given the provider responses; `none` when some fetcher raised
(in which case `main`'s top-level handler aborts the report). -/
def mainCollect (regions : List String)
    (e : String → Except PyExc EC2Response)
    (r : String → Except PyExc RDSResponse)
    (s : String → Except PyExc SPResponse) : Option (List Record) :=
  mainCollectAux e r s regions []

/-- `regions_with_data` as `main` prints it (lines 221, 239-240, 251):
the set of scanned regions whose three fetchers together produced at least
one record, iterated in sorted order. -/
def regionsWithData (regions : List String)
    (e : String → Except PyExc EC2Response)
    (r : String → Except PyExc RDSResponse)
    (s : String → Except PyExc SPResponse) : List String :=
  List.insertionSort (fun a b => a ≤ b)
    ((regions.filter (fun reg => !(tripleRecs reg e r s).isEmpty)).dedup)

/-- `len([r for r in all_reservations if r.get('Region') == region])`
(line 252). -/
def countRegion (l : List Record) (reg : String) : Nat :=
  (l.filter (fun x => decide (rget x "Region" = some (PyVal.str reg)))).length

/-- The region index `main` prints (lines 250-253): one line per region with
data, in sorted order, counting the accumulated records whose `Region` field
equals that region. -/
def regionIndex (regions : List String)
    (e : String → Except PyExc EC2Response)
    (r : String → Except PyExc RDSResponse)
    (s : String → Except PyExc SPResponse)
    (all : List Record) : List (String × Nat) :=
  (regionsWithData regions e r s).map (fun reg => (reg, countRegion all reg))

/-- `len([r for r in all_reservations if r['Type'] == t])` as `print_summary`
computes its three category counts (lines 156-158). -/
def typeCount (l : List Record) (t : String) : Nat :=
  (l.filter (fun x => decide (rget x "Type" = some (PyVal.str t)))).length

/-- A JSON value, as `json.dump` writes and `json.loads` reads it back. -/
inductive JVal where
  | jstr (s : String)
  | jint (n : Int)
  | jbool (b : Bool)
  | jobj (fields : List (String × JVal))
  | jarr (elems : List JVal)

/-- How `json.dump(..., default=str)` renders one field value: strings,
integers and booleans natively; a non-serializable `datetime` through
`default=str`, i.e. as its textual form. -/
def pyToJ : PyVal → JVal
  | .str s => .jstr s
  | .int n => .jint n
  | .bool b => .jbool b
  | .dt d => .jstr (datetimeStr d)

/-- The JSON document `save_to_json` writes (lines 188-195): the array of
records, each an object in insertion order. -/
def serializeReport (l : List Record) : JVal :=
  .jarr (l.map (fun x => .jobj (x.map (fun p => (p.1, pyToJ p.2)))))

/-- Reading one JSON scalar back as the Python value `json.loads` produces. -/
def jToPy : JVal → Option PyVal
  | .jstr s => some (.str s)
  | .jint n => some (.int n)
  | .jbool b => some (.bool b)
  | _ => none

/-- Reading a JSON object's field list back, value by value, in order. -/
def jFields : List (String × JVal) → Option Record
  | [] => some []
  | (k, jv) :: rest =>
    match jToPy jv, jFields rest with
    | some v, some vs => some ((k, v) :: vs)
    | _, _ => none

/-- Reading one JSON object back as a record (field order preserved). -/
def jToRecord : JVal → Option Record
  | .jobj fs => jFields fs
  | _ => none

/-- Reading a JSON array's elements back as records, in order. -/
def parseRecords : List JVal → Option (List Record)
  | [] => some []
  | j :: rest =>
    match jToRecord j, parseRecords rest with
    | some x, some xs => some (x :: xs)
    | _, _ => none

/-- Parsing the report file back: the sequence of field-mappings it holds. -/
def parseReport : JVal → Option (List Record)
  | .jarr es => parseRecords es
  | _ => none

/-- A field value is a JSON-primitive (not a raw `datetime` object). -/
def isPrim : PyVal → Bool
  | .dt _ => false
  | _ => true

/-- A concrete EC2 reserved instance with every optional field absent. -/
def ec2Sample : EC2RIRaw :=
  { ReservedInstancesId := "ri-1", InstanceType := "t3.micro",
    AvailabilityZone := none, State := "active",
    Start := some (.pdt ⟨2024, 1, 2, 3, 4, 5⟩), End := none,
    Duration := 31536000, InstanceCount := 2,
    ProductDescription := "Linux/UNIX", InstanceTenancy := "default",
    OfferingClass := "standard", OfferingType := "All Upfront",
    FixedPrice := none, UsagePrice := none, CurrencyCode := none }

/-- A concrete RDS reserved instance with every optional field absent. -/
def rdsSample : RDSRIRaw :=
  { ReservedDBInstanceId := "rds-1", DBInstanceClass := "db.t3.micro",
    ProductDescription := "postgresql", State := "active",
    StartTime := none, Duration := 31536000, DBInstanceCount := 1,
    OfferingType := "No Upfront", MultiAZ := false,
    FixedPrice := none, UsagePrice := none, CurrencyCode := none }

/-- A concrete savings plan with every optional field absent — in particular
its provider-side `region` field is missing. -/
def spSample : SPRaw :=
  { savingsPlanId := "sp-1", savingsPlanArn := "arn:sp-1",
    description := none, state := "active", savingsPlanType := "Compute",
    paymentOption := "No Upfront", start := none, end_ := none,
    commitment := "0.05", currency := "USD",
    upfrontPaymentAmount := none, recurringPaymentAmount := none,
    termDurationInSeconds := none, ec2InstanceFamily := none,
    region := none }

/-- A response function returning no EC2 reserved instances anywhere. -/
def noEC2 : String → Except PyExc EC2Response := fun _ => .ok ⟨[]⟩

/-- A response function returning no RDS reserved instances anywhere. -/
def noRDS : String → Except PyExc RDSResponse := fun _ => .ok ⟨[]⟩

/-- A response function returning no savings plans anywhere. -/
def noSP : String → Except PyExc SPResponse := fun _ => .ok ⟨[]⟩

/-- A response function returning exactly the sample savings plan. -/
def oneSP : String → Except PyExc SPResponse := fun _ => .ok ⟨[spSample]⟩

/-- A response function returning exactly the sample EC2 reservation. -/
def oneEC2 : String → Except PyExc EC2Response := fun _ => .ok ⟨[ec2Sample]⟩

/-- A response function returning exactly the sample RDS reservation. -/
def oneRDS : String → Except PyExc RDSResponse := fun _ => .ok ⟨[rdsSample]⟩

/-- The aggregated list of a one-region run in which each fetcher returns
its singleton sample response. -/
def runL : List Record :=
  [ec2Record "us-east-1" ec2Sample, rdsRecord "us-east-1" rdsSample,
    spRecord "us-east-1" spSample]

theorem dictInsert_notMem (d : Record) (k : String) (v : PyVal)
    (h : k ∉ d.map Prod.fst) : dictInsert d k v = d ++ [(k, v)] := by
  unfold dictInsert
  rw [if_neg]
  simp only [List.any_eq_true, beq_iff_eq, not_exists, not_and]
  intro p hp hk
  exact h (List.mem_map.mpr ⟨p, hp, hk⟩)

theorem dictInsert_mem (d : Record) (k : String) (v : PyVal)
    (h : k ∈ d.map Prod.fst) : dictInsert d k v =
      d.map (fun p => if p.1 == k then (k, v) else p) := by
  unfold dictInsert
  rw [if_pos]
  obtain ⟨p, hp, hk⟩ := List.mem_map.mp h
  exact List.any_eq_true.mpr ⟨p, hp, beq_iff_eq.mpr hk⟩

theorem dictLit_aux (entries : List (String × PyVal)) : ∀ acc : Record,
    (∀ k ∈ entries.map Prod.fst, k ∉ acc.map Prod.fst) →
    (entries.map Prod.fst).Nodup →
    entries.foldl (fun d e => dictInsert d e.1 e.2) acc = acc ++ entries := by
  induction entries with
  | nil => intro acc _ _; simp
  | cons e rest ih =>
    intro acc hdisj hnd
    have hnd2 : (e.1 :: rest.map Prod.fst).Nodup := by
      simpa using hnd
    have hnotmem : e.1 ∉ acc.map Prod.fst := by
      exact hdisj e.1 (by simp)
    have step : dictInsert acc e.1 e.2 = acc ++ [e] := by
      rw [dictInsert_notMem acc e.1 e.2 hnotmem]
    have hnd' : (rest.map Prod.fst).Nodup := hnd2.of_cons
    have hdisj' : ∀ k ∈ rest.map Prod.fst,
        k ∉ (acc ++ [e]).map Prod.fst := by
      intro k hk
      simp only [List.map_append, List.mem_append, List.map_cons,
        List.map_nil, List.mem_cons, List.not_mem_nil, or_false]
      rintro (hka | hke)
      · exact hdisj k (by simp [hk]) hka
      · rw [hke] at hk
        exact (List.nodup_cons.mp hnd2).1 hk
    calc (e :: rest).foldl (fun d p => dictInsert d p.1 p.2) acc
        = rest.foldl (fun d p => dictInsert d p.1 p.2) (acc ++ [e]) := by
          simp [List.foldl_cons, step]
      _ = (acc ++ [e]) ++ rest := ih (acc ++ [e]) hdisj' hnd'
      _ = acc ++ (e :: rest) := by simp

theorem dictLit_nodup (entries : List (String × PyVal))
    (h : (entries.map Prod.fst).Nodup) : dictLit entries = entries := by
  have := dictLit_aux entries [] (by simp) h
  simpa [dictLit] using this

theorem dictLit_concat (es : List (String × PyVal)) (k : String) (v : PyVal) :
    dictLit (es ++ [(k, v)]) = dictInsert (dictLit es) k v := by
  unfold dictLit
  rw [List.foldl_append]
  rfl

/-- `ec2Record` resolved: its entry keys are pairwise distinct, so the dict
literal is the written association list itself. -/
theorem ec2Record_eq (region : String) (ri : EC2RIRaw) :
    ec2Record region ri = [
      ("Type", .str "EC2 Reserved Instance"),
      ("Region", .str region),
      ("ReservedInstancesId", .str ri.ReservedInstancesId),
      ("InstanceType", .str ri.InstanceType),
      ("AvailabilityZone", .str (ri.AvailabilityZone.getD "N/A")),
      ("State", .str ri.State),
      ("Start", .str (format_datetime ri.Start)),
      ("End", .str (format_datetime ri.End)),
      ("Duration", .str (toString ri.Duration ++ " seconds")),
      ("InstanceCount", .int ri.InstanceCount),
      ("ProductDescription", .str ri.ProductDescription),
      ("InstanceTenancy", .str ri.InstanceTenancy),
      ("OfferingClass", .str ri.OfferingClass),
      ("OfferingType", .str ri.OfferingType),
      ("FixedPrice", .int (ri.FixedPrice.getD 0)),
      ("UsagePrice", .int (ri.UsagePrice.getD 0)),
      ("CurrencyCode", .str (ri.CurrencyCode.getD "USD"))] := by
  apply dictLit_nodup
  simp

/-- `rdsRecord` resolved likewise. -/
theorem rdsRecord_eq (region : String) (ri : RDSRIRaw) :
    rdsRecord region ri = [
      ("Type", .str "RDS Reserved Instance"),
      ("Region", .str region),
      ("ReservedDBInstanceId", .str ri.ReservedDBInstanceId),
      ("DBInstanceClass", .str ri.DBInstanceClass),
      ("Engine", .str ri.ProductDescription),
      ("State", .str ri.State),
      ("Start", .str (format_datetime ri.StartTime)),
      ("Duration", .str (toString ri.Duration ++ " seconds")),
      ("DBInstanceCount", .int ri.DBInstanceCount),
      ("OfferingType", .str ri.OfferingType),
      ("MultiAZ", .bool ri.MultiAZ),
      ("FixedPrice", .int (ri.FixedPrice.getD 0)),
      ("UsagePrice", .int (ri.UsagePrice.getD 0)),
      ("CurrencyCode", .str (ri.CurrencyCode.getD "USD"))] := by
  apply dictLit_nodup
  simp

/-- `spRecord` resolved: the key `"Region"` is written twice, so the dict
keeps its first position (second entry) but takes the value written last,
`sp.get('region', 'N/A')` — not the `region` argument. -/
theorem spRecord_eq (region : String) (sp : SPRaw) :
    spRecord region sp = [
      ("Type", .str "Savings Plan"),
      ("Region", .str (sp.region.getD "N/A")),
      ("SavingsPlanId", .str sp.savingsPlanId),
      ("SavingsPlanArn", .str sp.savingsPlanArn),
      ("Description", .str (sp.description.getD "N/A")),
      ("State", .str sp.state),
      ("PlanType", .str sp.savingsPlanType),
      ("PaymentOption", .str sp.paymentOption),
      ("Start", .str (format_datetime sp.start)),
      ("End", .str (format_datetime sp.end_)),
      ("Commitment", .str (sp.commitment ++ " " ++ sp.currency ++ "/hour")),
      ("Currency", .str sp.currency),
      ("UpfrontPayment", .str (sp.upfrontPaymentAmount.getD "N/A")),
      ("RecurringPayment", .str (sp.recurringPaymentAmount.getD "N/A")),
      ("TermDurationInSeconds",
        match sp.termDurationInSeconds with
        | some n => .int n
        | none => .str "N/A"),
      ("EC2InstanceFamily", .str (sp.ec2InstanceFamily.getD "N/A"))] := by
  show dictLit _ = _
  rw [show ([
      ("Type", PyVal.str "Savings Plan"),
      ("Region", PyVal.str region),
      ("SavingsPlanId", PyVal.str sp.savingsPlanId),
      ("SavingsPlanArn", PyVal.str sp.savingsPlanArn),
      ("Description", PyVal.str (sp.description.getD "N/A")),
      ("State", PyVal.str sp.state),
      ("PlanType", PyVal.str sp.savingsPlanType),
      ("PaymentOption", PyVal.str sp.paymentOption),
      ("Start", PyVal.str (format_datetime sp.start)),
      ("End", PyVal.str (format_datetime sp.end_)),
      ("Commitment",
        PyVal.str (sp.commitment ++ " " ++ sp.currency ++ "/hour")),
      ("Currency", PyVal.str sp.currency),
      ("UpfrontPayment", PyVal.str (sp.upfrontPaymentAmount.getD "N/A")),
      ("RecurringPayment", PyVal.str (sp.recurringPaymentAmount.getD "N/A")),
      ("TermDurationInSeconds",
        match sp.termDurationInSeconds with
        | some n => PyVal.int n
        | none => PyVal.str "N/A"),
      ("EC2InstanceFamily", PyVal.str (sp.ec2InstanceFamily.getD "N/A")),
      ("Region", PyVal.str (sp.region.getD "N/A"))] :
        List (String × PyVal)) = [
      ("Type", PyVal.str "Savings Plan"),
      ("Region", PyVal.str region),
      ("SavingsPlanId", PyVal.str sp.savingsPlanId),
      ("SavingsPlanArn", PyVal.str sp.savingsPlanArn),
      ("Description", PyVal.str (sp.description.getD "N/A")),
      ("State", PyVal.str sp.state),
      ("PlanType", PyVal.str sp.savingsPlanType),
      ("PaymentOption", PyVal.str sp.paymentOption),
      ("Start", PyVal.str (format_datetime sp.start)),
      ("End", PyVal.str (format_datetime sp.end_)),
      ("Commitment",
        PyVal.str (sp.commitment ++ " " ++ sp.currency ++ "/hour")),
      ("Currency", PyVal.str sp.currency),
      ("UpfrontPayment", PyVal.str (sp.upfrontPaymentAmount.getD "N/A")),
      ("RecurringPayment", PyVal.str (sp.recurringPaymentAmount.getD "N/A")),
      ("TermDurationInSeconds",
        match sp.termDurationInSeconds with
        | some n => PyVal.int n
        | none => PyVal.str "N/A"),
      ("EC2InstanceFamily", PyVal.str (sp.ec2InstanceFamily.getD "N/A"))] ++
        [("Region", PyVal.str (sp.region.getD "N/A"))] from rfl]
  rw [dictLit_concat, dictLit_nodup _ (by simp), dictInsert_mem _ _ _
    (by simp)]
  simp

theorem regionRecs_some {ef rf sf : FetchOutcome} {rr : List Record}
    (h : regionRecs ef rf sf = some rr) :
    rr = ef.records ++ rf.records ++ sf.records := by
  cases ef with
  | raised e => simp [regionRecs, okRecs] at h
  | ok a la =>
    cases rf with
    | raised e => simp [regionRecs, okRecs] at h
    | ok b lb =>
      cases sf with
      | raised e => simp [regionRecs, okRecs] at h
      | ok c lc =>
        simp [regionRecs, okRecs, FetchOutcome.records] at h ⊢
        exact h.symm

theorem mainCollectAux_eq (e : String → Except PyExc EC2Response)
    (r : String → Except PyExc RDSResponse)
    (s : String → Except PyExc SPResponse) :
    ∀ (regs : List String) (acc l : List Record),
    mainCollectAux e r s regs acc = some l →
    l = acc ++ (regs.map (fun reg => tripleRecs reg e r s)).flatten := by
  intro regs
  induction regs with
  | nil =>
    intro acc l h
    simp [mainCollectAux] at h
    simp [h]
  | cons reg rest ih =>
    intro acc l h
    rw [mainCollectAux] at h
    obtain ⟨rr, hrr, h2⟩ := Option.bind_eq_some.mp h
    have hrr2 : rr = tripleRecs reg e r s := regionRecs_some hrr
    have hacc : (if rr.isEmpty then acc else acc ++ rr) = acc ++ rr := by
      by_cases hemp : rr.isEmpty
      · rw [if_pos hemp, List.isEmpty_iff.mp hemp, List.append_nil]
      · rw [if_neg hemp]
    rw [hacc] at h2
    rw [ih (acc ++ rr) l h2, hrr2]
    simp [List.append_assoc]

theorem mainCollect_eq_flatten {regions : List String}
    {e : String → Except PyExc EC2Response}
    {r : String → Except PyExc RDSResponse}
    {s : String → Except PyExc SPResponse} {l : List Record}
    (h : mainCollect regions e r s = some l) :
    l = (regions.map (fun reg => tripleRecs reg e r s)).flatten := by
  have := mainCollectAux_eq e r s regions [] l h
  simpa using this

theorem mem_ec2_records {region : String} {call : Except PyExc EC2Response}
    {x : Record} (h : x ∈ (get_ec2_reserved_instances region call).records) :
    ∃ ri, x = ec2Record region ri := by
  cases call with
  | ok resp =>
    simp only [get_ec2_reserved_instances, FetchOutcome.records] at h
    obtain ⟨ri, _, hri⟩ := List.mem_map.mp h
    exact ⟨ri, hri.symm⟩
  | error exc =>
    cases exc with
    | clientError code msg =>
      by_cases hc : code ∈ authDeniedCodes
      · simp [get_ec2_reserved_instances, hc, FetchOutcome.records] at h
      · simp [get_ec2_reserved_instances, hc, FetchOutcome.records] at h
    | otherExc name msg =>
      simp [get_ec2_reserved_instances, FetchOutcome.records] at h

theorem mem_rds_records {region : String} {call : Except PyExc RDSResponse}
    {x : Record} (h : x ∈ (get_rds_reserved_instances region call).records) :
    ∃ ri, x = rdsRecord region ri := by
  cases call with
  | ok resp =>
    simp only [get_rds_reserved_instances, FetchOutcome.records] at h
    obtain ⟨ri, _, hri⟩ := List.mem_map.mp h
    exact ⟨ri, hri.symm⟩
  | error exc =>
    cases exc with
    | clientError code msg =>
      by_cases hc : code ∈ authDeniedCodes
      · simp [get_rds_reserved_instances, hc, FetchOutcome.records] at h
      · simp [get_rds_reserved_instances, hc, FetchOutcome.records] at h
    | otherExc name msg =>
      simp [get_rds_reserved_instances, FetchOutcome.records] at h

theorem mem_sp_records {region : String} {call : Except PyExc SPResponse}
    {x : Record} (h : x ∈ (get_savings_plans region call).records) :
    ∃ sp, x = spRecord region sp := by
  cases call with
  | ok resp =>
    simp only [get_savings_plans, FetchOutcome.records] at h
    obtain ⟨sp, _, hsp⟩ := List.mem_map.mp h
    exact ⟨sp, hsp.symm⟩
  | error exc =>
    cases exc with
    | clientError code msg =>
      by_cases hc : code ∈ authDeniedCodes
      · simp [get_savings_plans, hc, FetchOutcome.records] at h
      · simp [get_savings_plans, hc, FetchOutcome.records] at h
    | otherExc name msg =>
      simp [get_savings_plans, FetchOutcome.records] at h

theorem rget_ec2_Type (region : String) (ri : EC2RIRaw) :
    rget (ec2Record region ri) "Type" =
      some (.str "EC2 Reserved Instance") := by
  rw [ec2Record_eq]
  simp [rget, List.find?]

theorem rget_rds_Type (region : String) (ri : RDSRIRaw) :
    rget (rdsRecord region ri) "Type" =
      some (.str "RDS Reserved Instance") := by
  rw [rdsRecord_eq]
  simp [rget, List.find?]

theorem rget_sp_Type (region : String) (sp : SPRaw) :
    rget (spRecord region sp) "Type" = some (.str "Savings Plan") := by
  rw [spRecord_eq]
  simp [rget, List.find?]

theorem rget_ec2_Region (region : String) (ri : EC2RIRaw) :
    rget (ec2Record region ri) "Region" = some (.str region) := by
  rw [ec2Record_eq]
  simp [rget, List.find?]

theorem rget_rds_Region (region : String) (ri : RDSRIRaw) :
    rget (rdsRecord region ri) "Region" = some (.str region) := by
  rw [rdsRecord_eq]
  simp [rget, List.find?]

theorem rget_sp_Region (region : String) (sp : SPRaw) :
    rget (spRecord region sp) "Region" =
      some (.str (sp.region.getD "N/A")) := by
  rw [spRecord_eq]
  simp [rget, List.find?]

/-- C5: if the describe-regions call fails with a provider-side error (a
`ClientError` response), `get_all_regions` returns — without retrying, the
function issues exactly one call whose outcome it consumes — the hardcoded
fallback list, which has at least 15 region identifiers; a single failed
attempt triggers the fallback immediately, with one informational line. -/
theorem claim_C5_region_fallback (code msg : String) :
    get_all_regions (.error (.clientError code msg)) =
      .ok fallbackRegions ["Error getting regions: " ++ msg] ∧
    15 ≤ fallbackRegions.length := by
  exact ⟨rfl, by decide⟩

/-- C6 counterexample: the empty string is text, yet `format_datetime`
returns the literal `'N/A'` instead of the input unchanged (`if dt:` tests
Python truthiness and the empty string is falsy). -/
theorem claim_C6_counterexample :
    format_datetime (some (.pstr "")) = "N/A" ∧
    format_datetime (some (.pstr "")) ≠ "" := by
  decide

/-- C6 (amended): `format_datetime` returns non-empty text unchanged,
returns `'N/A'` when the input is absent or is the empty string, and renders
a datetime object in the fixed `YYYY-MM-DD HH:MM:SS UTC` format. -/
theorem claim_C6_format_datetime (s : String) (d : PyDateTime)
    (h : s ≠ "") :
    format_datetime (some (.pstr s)) = s ∧
    format_datetime none = "N/A" ∧
    format_datetime (some (.pstr "")) = "N/A" ∧
    format_datetime (some (.pdt d)) = strftimeUTC d := by
  refine ⟨?_, rfl, by decide, rfl⟩
  simp [format_datetime, pyTruthy, h]

/-- C6 witness: the amended trichotomy at concrete inputs. -/
theorem claim_C6_witness :
    format_datetime (some (.pstr "2023-01-01")) = "2023-01-01" ∧
    format_datetime none = "N/A" ∧
    format_datetime (some (.pstr "")) = "N/A" ∧
    format_datetime (some (.pdt ⟨2024, 1, 2, 3, 4, 5⟩)) =
      strftimeUTC ⟨2024, 1, 2, 3, 4, 5⟩ :=
  claim_C6_format_datetime "2023-01-01" ⟨2024, 1, 2, 3, 4, 5⟩ (by decide)

/-- C1 counterexample: queried in region `us-east-1`, the subscription-plan
fetcher returns a record whose `Region` field is `'N/A'` — the second
`'Region'` key written in the source's dict literal (line 143) overwrites
the first (line 128) — not the queried region. -/
theorem claim_C1_counterexample :
    get_savings_plans "us-east-1" (.ok ⟨[spSample]⟩) =
      .ok [spRecord "us-east-1" spSample] [] ∧
    rget (spRecord "us-east-1" spSample) "Region" = some (.str "N/A") ∧
    rget (spRecord "us-east-1" spSample) "Region" ≠
      some (.str "us-east-1") := by
  refine ⟨rfl, by decide, by decide⟩

/-- C1 (amended): every record returned by the compute and database fetchers
called with region `r` carries `Region = r`; a record returned by the
subscription-plan fetcher instead carries as `Region` the provider record's
own `region` field, defaulted to `'N/A'`, which need not equal the queried
region. -/
theorem claim_C1_region_field (region : String)
    (c1 : Except PyExc EC2Response) (c2 : Except PyExc RDSResponse)
    (c3 : Except PyExc SPResponse) (x : Record) :
    (x ∈ (get_ec2_reserved_instances region c1).records →
      rget x "Region" = some (.str region)) ∧
    (x ∈ (get_rds_reserved_instances region c2).records →
      rget x "Region" = some (.str region)) ∧
    (x ∈ (get_savings_plans region c3).records →
      ∃ sp, x = spRecord region sp ∧
        rget x "Region" = some (.str (sp.region.getD "N/A"))) := by
  refine ⟨?_, ?_, ?_⟩
  · intro h
    obtain ⟨ri, hx⟩ := mem_ec2_records h
    rw [hx, rget_ec2_Region]
  · intro h
    obtain ⟨ri, hx⟩ := mem_rds_records h
    rw [hx, rget_rds_Region]
  · intro h
    obtain ⟨sp, hx⟩ := mem_sp_records h
    exact ⟨sp, hx, by rw [hx, rget_sp_Region]⟩

/-- C1 witness: the amended behavior on singleton responses. -/
theorem claim_C1_witness :
    rget (ec2Record "us-east-1" ec2Sample) "Region" =
      some (PyVal.str "us-east-1") ∧
    rget (rdsRecord "us-east-1" rdsSample) "Region" =
      some (PyVal.str "us-east-1") ∧
    (∃ sp, spRecord "us-east-1" spSample = spRecord "us-east-1" sp ∧
      rget (spRecord "us-east-1" spSample) "Region" =
        some (PyVal.str (sp.region.getD "N/A"))) := by
  refine ⟨?_, ?_, ?_⟩
  · exact (claim_C1_region_field "us-east-1" (.ok ⟨[ec2Sample]⟩)
      (.ok ⟨[rdsSample]⟩) (.ok ⟨[spSample]⟩) _).1
      (by simp [get_ec2_reserved_instances, FetchOutcome.records])
  · exact (claim_C1_region_field "us-east-1" (.ok ⟨[ec2Sample]⟩)
      (.ok ⟨[rdsSample]⟩) (.ok ⟨[spSample]⟩) _).2.1
      (by simp [get_rds_reserved_instances, FetchOutcome.records])
  · exact (claim_C1_region_field "us-east-1" (.ok ⟨[ec2Sample]⟩)
      (.ok ⟨[rdsSample]⟩) (.ok ⟨[spSample]⟩) _).2.2
      (by simp [get_savings_plans, FetchOutcome.records])

/-- C3 counterexample: `upfrontPaymentAmount` is a monetary field, yet when
it is absent the subscription-plan fetcher fills `UpfrontPayment` with the
text `'N/A'`, not with `0`. -/
theorem claim_C3_counterexample :
    rget (spRecord "us-east-1" spSample) "UpfrontPayment" =
      some (.str "N/A") ∧
    rget (spRecord "us-east-1" spSample) "UpfrontPayment" ≠
      some (.int 0) := by
  decide

/-- C3 (amended): absent optional fields are always filled with a fixed
default — in the compute and database fetchers monetary fields default to
`0` and the currency code to `'USD'`; in the subscription-plan fetcher every
absent optional field, including the monetary payment amounts, defaults to
the text `'N/A'`. -/
theorem claim_C3_defaults (region : String) (ri : EC2RIRaw) (rd : RDSRIRaw)
    (sp : SPRaw)
    (h1 : ri.AvailabilityZone = none) (h2 : ri.FixedPrice = none)
    (h3 : ri.UsagePrice = none) (h4 : ri.CurrencyCode = none)
    (h5 : rd.FixedPrice = none) (h6 : rd.UsagePrice = none)
    (h7 : rd.CurrencyCode = none) (h8 : sp.description = none)
    (h9 : sp.upfrontPaymentAmount = none)
    (h10 : sp.recurringPaymentAmount = none)
    (h11 : sp.termDurationInSeconds = none)
    (h12 : sp.ec2InstanceFamily = none) (h13 : sp.region = none) :
    rget (ec2Record region ri) "AvailabilityZone" = some (.str "N/A") ∧
    rget (ec2Record region ri) "FixedPrice" = some (.int 0) ∧
    rget (ec2Record region ri) "UsagePrice" = some (.int 0) ∧
    rget (ec2Record region ri) "CurrencyCode" = some (.str "USD") ∧
    rget (rdsRecord region rd) "FixedPrice" = some (.int 0) ∧
    rget (rdsRecord region rd) "UsagePrice" = some (.int 0) ∧
    rget (rdsRecord region rd) "CurrencyCode" = some (.str "USD") ∧
    rget (spRecord region sp) "Description" = some (.str "N/A") ∧
    rget (spRecord region sp) "UpfrontPayment" = some (.str "N/A") ∧
    rget (spRecord region sp) "RecurringPayment" = some (.str "N/A") ∧
    rget (spRecord region sp) "TermDurationInSeconds" =
      some (.str "N/A") ∧
    rget (spRecord region sp) "EC2InstanceFamily" = some (.str "N/A") ∧
    rget (spRecord region sp) "Region" = some (.str "N/A") := by
  refine ⟨?_, ?_, ?_, ?_, ?_, ?_, ?_, ?_, ?_, ?_, ?_, ?_, ?_⟩
  · rw [ec2Record_eq, h1]; simp [rget, List.find?]
  · rw [ec2Record_eq, h2]; simp [rget, List.find?]
  · rw [ec2Record_eq, h3]; simp [rget, List.find?]
  · rw [ec2Record_eq, h4]; simp [rget, List.find?]
  · rw [rdsRecord_eq, h5]; simp [rget, List.find?]
  · rw [rdsRecord_eq, h6]; simp [rget, List.find?]
  · rw [rdsRecord_eq, h7]; simp [rget, List.find?]
  · rw [spRecord_eq, h8]; simp [rget, List.find?]
  · rw [spRecord_eq, h9]; simp [rget, List.find?]
  · rw [spRecord_eq, h10]; simp [rget, List.find?]
  · rw [spRecord_eq, h11]; simp [rget, List.find?]
  · rw [spRecord_eq, h12]; simp [rget, List.find?]
  · rw [spRecord_eq, h13]; simp [rget, List.find?]

/-- C3 witness: the amended defaults at sample records with every optional
field absent. -/
theorem claim_C3_witness :
    rget (ec2Record "us-east-1" ec2Sample) "AvailabilityZone" =
      some (PyVal.str "N/A") ∧
    rget (ec2Record "us-east-1" ec2Sample) "FixedPrice" =
      some (PyVal.int 0) ∧
    rget (ec2Record "us-east-1" ec2Sample) "UsagePrice" =
      some (PyVal.int 0) ∧
    rget (ec2Record "us-east-1" ec2Sample) "CurrencyCode" =
      some (PyVal.str "USD") ∧
    rget (rdsRecord "us-east-1" rdsSample) "FixedPrice" =
      some (PyVal.int 0) ∧
    rget (rdsRecord "us-east-1" rdsSample) "UsagePrice" =
      some (PyVal.int 0) ∧
    rget (rdsRecord "us-east-1" rdsSample) "CurrencyCode" =
      some (PyVal.str "USD") ∧
    rget (spRecord "us-east-1" spSample) "Description" =
      some (PyVal.str "N/A") ∧
    rget (spRecord "us-east-1" spSample) "UpfrontPayment" =
      some (PyVal.str "N/A") ∧
    rget (spRecord "us-east-1" spSample) "RecurringPayment" =
      some (PyVal.str "N/A") ∧
    rget (spRecord "us-east-1" spSample) "TermDurationInSeconds" =
      some (PyVal.str "N/A") ∧
    rget (spRecord "us-east-1" spSample) "EC2InstanceFamily" =
      some (PyVal.str "N/A") ∧
    rget (spRecord "us-east-1" spSample) "Region" =
      some (PyVal.str "N/A") :=
  claim_C3_defaults "us-east-1" ec2Sample rdsSample spSample
    rfl rfl rfl rfl rfl rfl rfl rfl rfl rfl rfl rfl rfl

/-- C4 counterexample: an exception that is not a `ClientError` — e.g. a
connection failure — is not caught by any fetcher's `except ClientError`
clause: it propagates out instead of being logged and turned into `[]`. -/
theorem claim_C4_counterexample :
    get_ec2_reserved_instances "us-east-1"
      (.error (.otherExc "EndpointConnectionError" "connect timeout")) =
      .raised (.otherExc "EndpointConnectionError" "connect timeout") ∧
    get_ec2_reserved_instances "us-east-1"
      (.error (.otherExc "EndpointConnectionError" "connect timeout")) ≠
      .ok [] ["Error retrieving EC2 Reserved Instances in us-east-1: " ++
        "connect timeout"] := by
  decide

/-- C4 (amended): for every fetcher and region — an authorization-denied
`ClientError` yields the empty list with no log line; any other
`ClientError` yields the empty list plus one log line; but an exception that
is not a `ClientError` is not caught and propagates out of the fetcher
(to `main`'s top-level handler). -/
theorem claim_C4_error_policy (region code c2 msg name m2 : String)
    (hauth : code ∈ authDeniedCodes) (hc2 : c2 ∉ authDeniedCodes) :
    (get_ec2_reserved_instances region (.error (.clientError code msg)) =
        .ok [] [] ∧
      get_rds_reserved_instances region (.error (.clientError code msg)) =
        .ok [] [] ∧
      get_savings_plans region (.error (.clientError code msg)) =
        .ok [] []) ∧
    (get_ec2_reserved_instances region (.error (.clientError c2 msg)) =
        .ok [] ["Error retrieving EC2 Reserved Instances in " ++ region ++
          ": " ++ msg] ∧
      get_rds_reserved_instances region (.error (.clientError c2 msg)) =
        .ok [] ["Error retrieving RDS Reserved Instances in " ++ region ++
          ": " ++ msg] ∧
      get_savings_plans region (.error (.clientError c2 msg)) =
        .ok [] ["Error retrieving Savings Plans in " ++ region ++
          ": " ++ msg]) ∧
    (get_ec2_reserved_instances region (.error (.otherExc name m2)) =
        .raised (.otherExc name m2) ∧
      get_rds_reserved_instances region (.error (.otherExc name m2)) =
        .raised (.otherExc name m2) ∧
      get_savings_plans region (.error (.otherExc name m2)) =
        .raised (.otherExc name m2)) := by
  refine ⟨⟨?_, ?_, ?_⟩, ⟨?_, ?_, ?_⟩, rfl, rfl, rfl⟩
  · simp [get_ec2_reserved_instances, hauth]
  · simp [get_rds_reserved_instances, hauth]
  · simp [get_savings_plans, hauth]
  · simp [get_ec2_reserved_instances, hc2]
  · simp [get_rds_reserved_instances, hc2]
  · simp [get_savings_plans, hc2]

/-- C4 witness: the amended error policy at concrete codes. -/
theorem claim_C4_witness :
    (get_ec2_reserved_instances "us-east-1"
        (.error (.clientError "AccessDenied" "m")) = .ok [] [] ∧
      get_rds_reserved_instances "us-east-1"
        (.error (.clientError "AccessDenied" "m")) = .ok [] [] ∧
      get_savings_plans "us-east-1"
        (.error (.clientError "AccessDenied" "m")) = .ok [] []) ∧
    (get_ec2_reserved_instances "us-east-1"
        (.error (.clientError "Throttling" "m")) =
        .ok [] ["Error retrieving EC2 Reserved Instances in " ++
          "us-east-1" ++ ": " ++ "m"] ∧
      get_rds_reserved_instances "us-east-1"
        (.error (.clientError "Throttling" "m")) =
        .ok [] ["Error retrieving RDS Reserved Instances in " ++
          "us-east-1" ++ ": " ++ "m"] ∧
      get_savings_plans "us-east-1"
        (.error (.clientError "Throttling" "m")) =
        .ok [] ["Error retrieving Savings Plans in " ++
          "us-east-1" ++ ": " ++ "m"]) ∧
    (get_ec2_reserved_instances "us-east-1"
        (.error (.otherExc "TypeError" "bad")) =
        .raised (.otherExc "TypeError" "bad") ∧
      get_rds_reserved_instances "us-east-1"
        (.error (.otherExc "TypeError" "bad")) =
        .raised (.otherExc "TypeError" "bad") ∧
      get_savings_plans "us-east-1"
        (.error (.otherExc "TypeError" "bad")) =
        .raised (.otherExc "TypeError" "bad")) :=
  claim_C4_error_policy "us-east-1" "AccessDenied" "Throttling" "m"
    "TypeError" "bad" (by decide) (by decide)

theorem mem_mainCollect {regions : List String}
    {e : String → Except PyExc EC2Response}
    {r : String → Except PyExc RDSResponse}
    {s : String → Except PyExc SPResponse} {l : List Record} {x : Record}
    (hm : mainCollect regions e r s = some l) (hx : x ∈ l) :
    ∃ reg ∈ regions, x ∈ tripleRecs reg e r s := by
  rw [mainCollect_eq_flatten hm] at hx
  obtain ⟨lr, hlr, hxl⟩ := List.mem_flatten.mp hx
  obtain ⟨reg, hreg, hmap⟩ := List.mem_map.mp hlr
  exact ⟨reg, hreg, hmap ▸ hxl⟩

theorem mem_tripleRecs_type {reg : String}
    {e : String → Except PyExc EC2Response}
    {r : String → Except PyExc RDSResponse}
    {s : String → Except PyExc SPResponse} {x : Record}
    (h : x ∈ tripleRecs reg e r s) :
    rget x "Type" = some (.str "EC2 Reserved Instance") ∨
    rget x "Type" = some (.str "RDS Reserved Instance") ∨
    rget x "Type" = some (.str "Savings Plan") := by
  rcases List.mem_append.mp h with h2 | h2
  · rcases List.mem_append.mp h2 with h3 | h3
    · obtain ⟨ri, hx⟩ := mem_ec2_records h3
      exact Or.inl (hx ▸ rget_ec2_Type reg ri)
    · obtain ⟨ri, hx⟩ := mem_rds_records h3
      exact Or.inr (Or.inl (hx ▸ rget_rds_Type reg ri))
  · obtain ⟨sp, hx⟩ := mem_sp_records h2
    exact Or.inr (Or.inr (hx ▸ rget_sp_Type reg sp))

theorem typeCount_sum (l : List Record)
    (h : ∀ x ∈ l, rget x "Type" = some (.str "EC2 Reserved Instance") ∨
      rget x "Type" = some (.str "RDS Reserved Instance") ∨
      rget x "Type" = some (.str "Savings Plan")) :
    typeCount l "EC2 Reserved Instance" +
      typeCount l "RDS Reserved Instance" +
      typeCount l "Savings Plan" = l.length := by
  induction l with
  | nil => simp [typeCount]
  | cons x rest ih =>
    have hx := h x (List.mem_cons_self x rest)
    have ihr := ih (fun y hy => h y (List.mem_cons_of_mem x hy))
    simp only [typeCount, List.length_cons] at ihr ⊢
    rcases hx with hx | hx | hx <;>
      simp only [List.filter_cons, hx] <;> simp <;> omega

theorem mem_regionsWithData {regions : List String}
    {e : String → Except PyExc EC2Response}
    {r : String → Except PyExc RDSResponse}
    {s : String → Except PyExc SPResponse} {reg : String} :
    reg ∈ regionsWithData regions e r s ↔
      reg ∈ regions ∧ tripleRecs reg e r s ≠ [] := by
  unfold regionsWithData
  rw [(List.perm_insertionSort _ _).mem_iff, List.mem_dedup,
    List.mem_filter]
  simp

theorem sorted_regionsWithData (regions : List String)
    (e : String → Except PyExc EC2Response)
    (r : String → Except PyExc RDSResponse)
    (s : String → Except PyExc SPResponse) :
    List.Sorted (fun a b => a ≤ b) (regionsWithData regions e r s) :=
  List.sorted_insertionSort _ _

theorem jToPy_pyToJ {v : PyVal} (h : isPrim v = true) :
    jToPy (pyToJ v) = some v := by
  cases v <;> simp [pyToJ, jToPy, isPrim] at h ⊢

theorem jToRecord_roundtrip : ∀ x : Record,
    (∀ kv ∈ x, isPrim kv.2 = true) →
    jToRecord (JVal.jobj (x.map (fun p => (p.1, pyToJ p.2)))) = some x := by
  intro x
  induction x with
  | nil => intro _; rfl
  | cons kv rest ih =>
    intro h
    have h1 := h kv (List.mem_cons_self kv rest)
    have ihr := ih (fun p hp => h p (List.mem_cons_of_mem kv hp))
    simp only [jToRecord] at ihr ⊢
    simp only [List.map_cons, jFields]
    rw [jToPy_pyToJ h1, ihr]

theorem parseReport_serialize (l : List Record)
    (h : ∀ x ∈ l, ∀ kv ∈ x, isPrim kv.2 = true) :
    parseReport (serializeReport l) = some l := by
  induction l with
  | nil => rfl
  | cons x rest ih =>
    have hx := h x (List.mem_cons_self x rest)
    have ihr := ih (fun y hy => h y (List.mem_cons_of_mem x hy))
    simp only [parseReport, serializeReport, List.map_cons] at ihr ⊢
    simp only [parseRecords]
    rw [jToRecord_roundtrip x hx, ihr]

theorem ec2Record_prim (region : String) (ri : EC2RIRaw) :
    ∀ kv ∈ ec2Record region ri, isPrim kv.2 = true := by
  have hall : (ec2Record region ri).all (fun kv => isPrim kv.2) = true := by
    rw [ec2Record_eq]
    simp [isPrim]
  exact fun kv hkv => List.all_eq_true.mp hall kv hkv

theorem rdsRecord_prim (region : String) (ri : RDSRIRaw) :
    ∀ kv ∈ rdsRecord region ri, isPrim kv.2 = true := by
  have hall : (rdsRecord region ri).all (fun kv => isPrim kv.2) = true := by
    rw [rdsRecord_eq]
    simp [isPrim]
  exact fun kv hkv => List.all_eq_true.mp hall kv hkv

theorem spRecord_prim (region : String) (sp : SPRaw) :
    ∀ kv ∈ spRecord region sp, isPrim kv.2 = true := by
  have hall : (spRecord region sp).all (fun kv => isPrim kv.2) = true := by
    rw [spRecord_eq]
    cases htd : sp.termDurationInSeconds <;> simp [htd, isPrim]
  exact fun kv hkv => List.all_eq_true.mp hall kv hkv

theorem mem_tripleRecs_prim {reg : String}
    {e : String → Except PyExc EC2Response}
    {r : String → Except PyExc RDSResponse}
    {s : String → Except PyExc SPResponse} {x : Record}
    (h : x ∈ tripleRecs reg e r s) : ∀ kv ∈ x, isPrim kv.2 = true := by
  rcases List.mem_append.mp h with h2 | h2
  · rcases List.mem_append.mp h2 with h3 | h3
    · obtain ⟨ri, hx⟩ := mem_ec2_records h3
      exact hx ▸ ec2Record_prim reg ri
    · obtain ⟨ri, hx⟩ := mem_rds_records h3
      exact hx ▸ rdsRecord_prim reg ri
  · obtain ⟨sp, hx⟩ := mem_sp_records h2
    exact hx ▸ spRecord_prim reg sp

/-- C7: for every aggregated list produced by a completed run of the
pipeline, the three per-category counts printed by `print_summary` sum
exactly to the printed grand total, the length of the aggregated list. -/
theorem claim_C7_summary_total (regions : List String)
    (e : String → Except PyExc EC2Response)
    (r : String → Except PyExc RDSResponse)
    (s : String → Except PyExc SPResponse) (l : List Record)
    (h : mainCollect regions e r s = some l) :
    typeCount l "EC2 Reserved Instance" +
      typeCount l "RDS Reserved Instance" +
      typeCount l "Savings Plan" = l.length := by
  apply typeCount_sum
  intro x hx
  obtain ⟨reg, _, hmem⟩ := mem_mainCollect h hx
  exact mem_tripleRecs_type hmem

/-- C7 witness: the summary identity on a concrete completed run. -/
theorem claim_C7_witness :
    typeCount runL "EC2 Reserved Instance" +
      typeCount runL "RDS Reserved Instance" +
      typeCount runL "Savings Plan" = runL.length :=
  claim_C7_summary_total ["us-east-1"] oneEC2 oneRDS oneSP runL (by decide)

/-- C8: the aggregated sequence of a completed run is exactly the
concatenation of the per-region fetcher results in region scan order, and
within each region in the order compute, database, subscription-plan. -/
theorem claim_C8_order (regions : List String)
    (e : String → Except PyExc EC2Response)
    (r : String → Except PyExc RDSResponse)
    (s : String → Except PyExc SPResponse) (l : List Record)
    (h : mainCollect regions e r s = some l) :
    l = (regions.map (fun reg =>
      (get_ec2_reserved_instances reg (e reg)).records ++
      (get_rds_reserved_instances reg (r reg)).records ++
      (get_savings_plans reg (s reg)).records)).flatten := by
  have h2 := mainCollect_eq_flatten h
  simpa only [tripleRecs] using h2

/-- C8 witness: the concatenation shape on a concrete two-region run. -/
theorem claim_C8_witness :
    [ec2Record "us-east-1" ec2Sample, rdsRecord "us-east-1" rdsSample,
      spRecord "us-east-1" spSample, ec2Record "eu-west-1" ec2Sample,
      rdsRecord "eu-west-1" rdsSample, spRecord "eu-west-1" spSample] =
    ((["us-east-1", "eu-west-1"]).map (fun reg =>
      (get_ec2_reserved_instances reg (oneEC2 reg)).records ++
      (get_rds_reserved_instances reg (oneRDS reg)).records ++
      (get_savings_plans reg (oneSP reg)).records)).flatten :=
  claim_C8_order ["us-east-1", "eu-west-1"] oneEC2 oneRDS oneSP _ (by decide)

/-- C10: every record in the aggregated list of a completed run carries a
`Type` field equal to one of the three literal category strings, so the
summary's partition by category is exhaustive (and mutually exclusive,
the three literals being distinct). -/
theorem claim_C10_type_partition (regions : List String)
    (e : String → Except PyExc EC2Response)
    (r : String → Except PyExc RDSResponse)
    (s : String → Except PyExc SPResponse) (l : List Record) (x : Record)
    (hm : mainCollect regions e r s = some l) (hx : x ∈ l) :
    rget x "Type" = some (.str "EC2 Reserved Instance") ∨
    rget x "Type" = some (.str "RDS Reserved Instance") ∨
    rget x "Type" = some (.str "Savings Plan") := by
  obtain ⟨reg, _, hmem⟩ := mem_mainCollect hm hx
  exact mem_tripleRecs_type hmem

/-- C10 witness: the `Type` trichotomy for a record of a concrete run. -/
theorem claim_C10_witness :
    rget (spRecord "us-east-1" spSample) "Type" =
      some (PyVal.str "EC2 Reserved Instance") ∨
    rget (spRecord "us-east-1" spSample) "Type" =
      some (PyVal.str "RDS Reserved Instance") ∨
    rget (spRecord "us-east-1" spSample) "Type" =
      some (PyVal.str "Savings Plan") :=
  claim_C10_type_partition ["us-east-1"] oneEC2 oneRDS oneSP runL
    (spRecord "us-east-1" spSample) (by decide) (by decide)

/-- C2 counterexample: a run over the single region `us-east-1` in which
the subscription-plan fetcher returns one record: one record is collected
from that region, yet the printed region index reads `us-east-1: 0`,
because the record's `Region` field is `'N/A'`, not the scanned region. -/
theorem claim_C2_counterexample :
    mainCollect ["us-east-1"] noEC2 noRDS oneSP =
      some [spRecord "us-east-1" spSample] ∧
    (tripleRecs "us-east-1" noEC2 noRDS oneSP).length = 1 ∧
    regionIndex ["us-east-1"] noEC2 noRDS oneSP
      [spRecord "us-east-1" spSample] = [("us-east-1", 0)] := by
  refine ⟨by decide, by decide, by decide⟩

/-- C2 (amended): in a completed run, the region index has exactly one
entry per scanned region whose fetchers collectively produced at least one
record, the entries are sorted by region identifier, and each entry's count
is the number of aggregated records whose `Region` field equals that region
identifier — which can differ from the number of records collected from
that region, since subscription-plan records carry their own `Region`. -/
theorem claim_C2_region_index (regions : List String)
    (e : String → Except PyExc EC2Response)
    (r : String → Except PyExc RDSResponse)
    (s : String → Except PyExc SPResponse) (l : List Record)
    (_h : mainCollect regions e r s = some l) :
    List.Sorted (fun a b => a ≤ b)
      ((regionIndex regions e r s l).map Prod.fst) ∧
    (∀ reg n, (reg, n) ∈ regionIndex regions e r s l →
      reg ∈ regions ∧ tripleRecs reg e r s ≠ [] ∧
        n = countRegion l reg) ∧
    (∀ reg, reg ∈ regions → tripleRecs reg e r s ≠ [] →
      (reg, countRegion l reg) ∈ regionIndex regions e r s l) := by
  refine ⟨?_, ?_, ?_⟩
  · have hmap : (regionIndex regions e r s l).map Prod.fst =
        regionsWithData regions e r s := by
      simp [regionIndex, List.map_map, Function.comp_def]
    rw [hmap]
    exact sorted_regionsWithData regions e r s
  · intro reg n hmem
    simp only [regionIndex, List.mem_map] at hmem
    obtain ⟨reg', hreg', heq⟩ := hmem
    have hr : reg' = reg := congrArg Prod.fst heq
    have hn : countRegion l reg' = n := congrArg Prod.snd heq
    subst hr
    obtain ⟨ha, hb⟩ := mem_regionsWithData.mp hreg'
    exact ⟨ha, hb, hn.symm⟩
  · intro reg hin hne
    simp only [regionIndex, List.mem_map]
    exact ⟨reg, mem_regionsWithData.mpr ⟨hin, hne⟩, rfl⟩

/-- C2 witness: the amended index properties on a concrete completed run. -/
theorem claim_C2_witness :
    List.Sorted (fun a b => a ≤ b)
      ((regionIndex ["us-east-1"] oneEC2 oneRDS oneSP runL).map
        Prod.fst) ∧
    ("us-east-1", countRegion runL "us-east-1") ∈
      regionIndex ["us-east-1"] oneEC2 oneRDS oneSP runL := by
  have h := claim_C2_region_index ["us-east-1"] oneEC2 oneRDS oneSP runL
    (by decide)
  exact ⟨h.1, h.2.2 "us-east-1" (by decide) (by decide)⟩

/-- C9: serializing the aggregated list of a completed run (as `json.dump`
with `default=str` builds the document) and parsing it back yields the same
sequence of field-mappings, in content and order; and a timestamp object
would be represented as its text rendering in the document. -/
theorem claim_C9_roundtrip (regions : List String)
    (e : String → Except PyExc EC2Response)
    (r : String → Except PyExc RDSResponse)
    (s : String → Except PyExc SPResponse) (l : List Record)
    (h : mainCollect regions e r s = some l) :
    parseReport (serializeReport l) = some l ∧
    ∀ d : PyDateTime, pyToJ (.dt d) = .jstr (datetimeStr d) := by
  constructor
  · apply parseReport_serialize
    intro x hx
    obtain ⟨reg, _, hmem⟩ := mem_mainCollect h hx
    exact mem_tripleRecs_prim hmem
  · intro d
    rfl

/-- C9 witness: round-trip fidelity on a concrete completed run. -/
theorem claim_C9_witness :
    parseReport (serializeReport runL) = some runL ∧
    pyToJ (.dt ⟨2024, 1, 2, 3, 4, 5⟩) =
      .jstr (datetimeStr ⟨2024, 1, 2, 3, 4, 5⟩) := by
  have h := claim_C9_roundtrip ["us-east-1"] oneEC2 oneRDS oneSP runL
    (by decide)
  exact ⟨h.1, h.2 ⟨2024, 1, 2, 3, 4, 5⟩⟩
